import Mathlib

/-!
Verification development for the ctod terrain server.

Each definition below is a shallow embedding of a function of the repository,
translated from the Python source file named in its doc comment.  Machine
floats of the source are modelled as exact rationals (`ℚ`); numpy arrays as
lists; fallible Python calls as `Option`/`Except`.
-/

namespace Ctod

/-- Point in three dimensions: the rows of the numpy `(-1, 3)` vertex and
normal arrays used throughout the repository. -/
abbrev V3 := ℚ × ℚ × ℚ

/-- Triangle: one row of a `(-1, 3)` index array. -/
abbrev Tri := ℕ × ℕ × ℕ

/-- Value of a Python expression appearing at a modelled call site: the
repository only passes strings and numbers in the places we model. -/
inductive PyArg where
  | str (s : String)
  | int (z : Int)
  | num (q : ℚ)
  deriving DecidableEq, Repr

/-! ## `ctod/core/utils.py` -/

/-- Embedding of `generate_cog_cache_key` (`ctod/core/utils.py` lines 26-32):
`return f"{cog}_{meshing_method}_{z}_{x}_{y}"`.  The function has five
required positional parameters. -/
def generate_cog_cache_key (cog meshing_method : String) (z x y : Int) : String :=
  cog ++ "_" ++ meshing_method ++ "_" ++ toString z ++ "_" ++ toString x ++ "_" ++ toString y

/-- Python call semantics for `generate_cog_cache_key`: a call must supply all
five positional arguments, otherwise Python raises `TypeError` before the body
runs.  (Python would also format non-string arguments; the calls we model pass
strings and ints exactly as written here.) -/
def call_generate_cog_cache_key (args : List PyArg) : Except String String :=
  match args with
  | [PyArg.str cog, PyArg.str mm, PyArg.int z, PyArg.int x, PyArg.int y] =>
      Except.ok (generate_cog_cache_key cog mm z x y)
  | _ => Except.error ("TypeError")

/-- Argument list of the call in `CogRequest.__init__`
(`ctod/core/cog/cog_request.py` line 29):
`self.key = generate_cog_cache_key(cog, z, x, y)` — four positional arguments
are passed to the five-parameter function. -/
def cogRequest_key_args (cog : String) (z x y : Int) : List PyArg :=
  [PyArg.str cog, PyArg.int z, PyArg.int x, PyArg.int y]

/-- Argument list of the call in `TerrainRequest.__init__`
(`ctod/core/terrain/terrain_request.py` line 46):
`generate_cog_cache_key(self.cog, self.cog_processor.get_name(), self.z, self.x, self.y)`. -/
def terrainRequest_key_args (cog mm : String) (z x y : Int) : List PyArg :=
  [PyArg.str cog, PyArg.str mm, PyArg.int z, PyArg.int x, PyArg.int y]

/-- Embedding of `rescale_positions` (`ctod/core/utils.py` lines 75-110).
`tile_size = vertices[:, :2].max()` is the maximum over both the x and the y
column of the input; x and y are scaled linearly onto the bounds and the third
column is copied.  Exact rationals stand in for float64; in Lean `q / 0 = 0`
where numpy produces `inf`/`nan` — the degenerate `tile_size = 0` case is
non-landing on the maximal edge in both semantics. -/
def rescale_positions (vertices : List V3) (bounds : ℚ × ℚ × ℚ × ℚ)
    (flip_y : Bool) : List V3 :=
  let tile_size := ((vertices.map Prod.fst) ++ (vertices.map (fun v => v.2.1))).foldl max 0
  let minx := bounds.1
  let miny := bounds.2.1
  let maxx := bounds.2.2.1
  let maxy := bounds.2.2.2
  let x_scale := (maxx - minx) / tile_size
  let y_scale := (maxy - miny) / tile_size
  if flip_y then
    vertices.map (fun v => (v.1 * x_scale + minx, v.2.1 * (-y_scale) + maxy, v.2.2))
  else
    vertices.map (fun v => (v.1 * x_scale + minx, v.2.1 * y_scale + miny, v.2.2))

/-- Maximum of the first two columns of a vertex list, as computed by
`vertices[:, :2].max()`.  (numpy's `max` of a nonempty nonnegative array; the
`0` seed matches it on the meshes of this repository, whose pixel coordinates
are nonnegative.) -/
def tileSizeOf (vertices : List V3) : ℚ :=
  ((vertices.map Prod.fst) ++ (vertices.map (fun v => v.2.1))).foldl max 0

/-! ## `ctod/core/cog/processor/grid.py` -/

/-- Embedding of `np.linspace(0, width, n + 1)` followed by `astype(int)`
truncation: the j-th sample is `⌊width * j / n⌋` (all values nonnegative, so
numpy's toward-zero truncation is the floor, and natural division computes
it). -/
def linspace_trunc (width n : ℕ) : List ℕ :=
  (List.range (n + 1)).map (fun j => width * j / n)

/-- Embedding of `generate_grid` (`ctod/core/cog/processor/grid.py`):
`meshgrid` of the two truncated linspaces, flattened row-major, so vertex
`i * (num_cols + 1) + j` is `(xs[j], ys[i])`; each cell `(i, j)` yields the
triangles `(top_left, top_right, bottom_left)` and
`(bottom_left, top_right, bottom_right)`. -/
def generate_grid (width height num_rows num_cols : ℕ) :
    List (ℕ × ℕ) × List Tri :=
  let xs := linspace_trunc width num_cols
  let ys := linspace_trunc height num_rows
  let vertices := ys.flatMap (fun y => xs.map (fun x => (x, y)))
  let triangles := (List.range num_rows).flatMap (fun i =>
    (List.range num_cols).flatMap (fun j =>
      let top_left := i * (num_cols + 1) + j
      let top_right := top_left + 1
      let bottom_left := (i + 1) * (num_cols + 1) + j
      let bottom_right := bottom_left + 1
      [(top_left, top_right, bottom_left), (bottom_left, top_right, bottom_right)]))
  (vertices, triangles)

/-- Embedding of `CogProcessorQuantizedMeshGrid._get_grid`
(`ctod/core/cog/processor/cog_processor_quantized_mesh_grid.py` lines 94-113):
`self.grid_wh = 255`; row and column counts above 255 are clamped to 255, then
`generate_grid(255, 255, num_rows, num_cols)` is called. -/
def cogProcessorGrid_get_grid (num_rows num_cols : ℕ) : List (ℕ × ℕ) × List Tri :=
  let grid_wh := 255
  let num_rows := if num_rows > grid_wh then grid_wh else num_rows
  let num_cols := if num_cols > grid_wh then grid_wh else num_cols
  generate_grid grid_wh grid_wh num_rows num_cols

/-! ## `ctod/core/factory/factory_cache.py` -/

/-- Row of the SQLite `cache` table: `(key TEXT, value BLOB, timestamp REAL)`;
the value blob plays no role in the claims about eviction. -/
structure CacheEntry where
  key : String
  timestamp : ℚ
  deriving DecidableEq, Repr

/-- Embedding of `FactoryCache.clear_expired` (`ctod/core/factory/factory_cache.py`
lines 164-176).  The SQL
`DELETE FROM cache WHERE (strftime('%s','now') - timestamp) > ? AND key NOT IN (...)`
with parameters `(self.ttl, *keys_to_keep)` removes exactly the rows strictly
older than `ttl` seconds whose key is not among `keys_to_keep`.  When
`keys_to_keep` is empty the generated `NOT IN ()` is an SQLite syntax error;
the surrounding `except` swallows it, so no row is deleted in that case. -/
def clear_expired (entries : List CacheEntry) (ttl now : ℚ)
    (keys_to_keep : List String) : List CacheEntry :=
  if keys_to_keep.isEmpty then entries
  else entries.filter
    (fun e => !(decide (now - e.timestamp > ttl) && !(keys_to_keep.contains e.key)))

/-- Method names defined by `class FactoryCache`
(`ctod/core/factory/factory_cache.py`); the factory's calls are looked up in
this table.  Note there is no method named `set` and none named `on_set`. -/
def factoryCache_methods : List String :=
  ["initialize", "update_keys", "add", "_add_batched", "get", "clear_expired",
   "get_cache_size", "on_cache_change", "_get_keys", "_clear_cache", "close"]

/-! ## `ctod/core/factory/terrain_factory.py` -/

/-- Pending `TerrainRequest` as seen by the factory: the keys of its wanted
files. -/
structure PendingRequest where
  wantedKeys : List String
  deriving DecidableEq, Repr

/-- Embedding of `TerrainFactory._cleanup` (`ctod/core/factory/terrain_factory.py`
lines 209-230): `keep` is the concatenation, over all pending terrain
requests, of their wanted-file keys, and is passed to
`FactoryCache.clear_expired`. -/
def factory_cleanup (entries : List CacheEntry) (ttl now : ℚ)
    (pending : List PendingRequest) : List CacheEntry :=
  let keep := pending.flatMap (fun r => r.wantedKeys)
  clear_expired entries ttl now keep

/-- Control state of `TerrainFactory` consulted by the deduplication logic,
plus a counter of source-tile downloads actually performed. -/
structure FactoryState where
  cacheKeys : List String
  queue : List String
  openRequests : List String
  reads : ℕ
  deriving DecidableEq, Repr

/-- Wanted file of a terrain request as consulted by `handle_request`: its
cache key (computed with all five components by `TerrainRequest`, see
`terrainRequest_key_args`) and the fields `cog`, `z`, `x`, `y` that
`handle_request` passes to the `CogRequest` constructor. -/
structure WantedFile where
  key : String
  cog : String
  z : Int
  x : Int
  y : Int
  deriving DecidableEq, Repr

/-- Loop body of `handle_request` (`ctod/core/factory/terrain_factory.py`
lines 57-81) over the wanted files, with the queue and open-request key
snapshots fixed: a wanted key in none of the cache key set and the two
snapshots leads to `CogRequest(tms, wanted_file.cog, wanted_file.z, ...)` —
whose `__init__` calls `generate_cog_cache_key(cog, z, x, y)` with four of
the five required arguments (cog_request.py line 29, see
`cogRequest_key_args`).  The `TypeError` raised there aborts the loop before
`processing_queue.put`; only if the key function call returned would the key
be enqueued and the loop continue. -/
def enqueue_wanted (cacheKeys qkeys okeys : List String) (q : List String) :
    List WantedFile → Except String (List String)
  | [] => Except.ok q
  | w :: rest =>
    if !(cacheKeys.contains w.key) && !(qkeys.contains w.key)
        && !(okeys.contains w.key) then
      match call_generate_cog_cache_key (cogRequest_key_args w.cog w.z w.x w.y) with
      | Except.error e => Except.error e
      | Except.ok _ => enqueue_wanted cacheKeys qkeys okeys (q ++ [w.key]) rest
    else enqueue_wanted cacheKeys qkeys okeys q rest

/-- Embedding of the locked section of `TerrainFactory.handle_request`
(lines 49-88): snapshots of the processing-queue keys and the open-request
keys are taken, then the wanted files are walked by `enqueue_wanted`.  There
is no `try` around the loop, so the `TypeError` raised inside the
`CogRequest` constructor escapes `handle_request` with nothing enqueued. -/
def handle_request_enqueue (s : FactoryState) (wanted : List WantedFile) :
    Except String FactoryState :=
  let processing_queue_keys := s.queue
  let open_requests_keys := s.openRequests
  (enqueue_wanted s.cacheKeys processing_queue_keys open_requests_keys
      s.queue wanted).map (fun q => { s with queue := q })

/-- Embedding of `TerrainFactory._process_queue` (lines 104-112): every queued
CogRequest is dequeued, its key is added to `open_requests`, and a task
running `_process_completed_cog_request` is spawned; the download itself is
attempted inside that task, not here. -/
def process_queue (s : FactoryState) : FactoryState :=
  { s with queue := [], openRequests := s.openRequests ++ s.queue }

/-- Number of parameters of `CogRequest.download_tile_async` besides `self`
(`ctod/core/cog/cog_request.py` line 50: `async def download_tile_async(self)`). -/
def download_tile_async_param_count : ℕ := 0

/-- Number of arguments passed at the call site
`await cog_request.download_tile_async(self._get_executor())`
(`ctod/core/factory/terrain_factory.py` line 117). -/
def factory_download_call_arg_count : ℕ := 1

/-- Embedding of `TerrainFactory._process_completed_cog_request` (lines
114-131).  Its `try` body first awaits
`cog_request.download_tile_async(self._get_executor())`; the method takes no
executor parameter, so that call raises `TypeError` BEFORE the download,
before `open_requests.remove` and before `cache.set`; the `except` at the end
logs and swallows it, leaving the state unchanged — the key stays in
`open_requests`, no source read happens and nothing is cached.  (Had the
arities matched, the download would run once, the key would be removed, and
the subsequent `self.cache.set(...)` would itself raise `AttributeError` —
`FactoryCache` defines no `set`, see `factoryCache_methods` — also swallowed,
leaving the cache keys unchanged.) -/
def process_completed_cog_request (s : FactoryState) (k : String) : FactoryState :=
  if factory_download_call_arg_count = download_tile_async_param_count then
    let s1 := { s with openRequests := s.openRequests.erase k, reads := s.reads + 1 }
    if factoryCache_methods.contains ("set")
    then { s1 with cacheKeys := s1.cacheKeys ++ [k] }
    else s1
  else s

/-! ## `ctod/core/cog/reader/cog_reader.py` and `ctod/core/cog/cog_request.py` -/

/-- Decimal value of a digit string. -/
def digitsToNat (l : List Char) : ℕ :=
  l.foldl (fun acc c => 10 * acc + (c.toNat - '0'.toNat)) 0

/-- Python `float(...)` applied to a modelled argument: numbers convert; a
string converts only if it is a numeric literal, otherwise `ValueError` is
raised.  (Python's float grammar also accepts signs, decimal points and
exponents; the only strings reaching the modelled call are resampling-method
names such as `"bilinear"`, which contain letters, so the integer-literal
under-approximation decides them identically.) -/
def pyFloat : PyArg → Except String ℚ
  | PyArg.int z => Except.ok (z : ℚ)
  | PyArg.num q => Except.ok q
  | PyArg.str s =>
    if s ≠ "" && s.data.all Char.isDigit
    then Except.ok (digitsToNat s.data : ℚ)
    else Except.error ("ValueError")

/-- Single-band heightmap: `image_data.data[0]` as a list of pixel rows. -/
abbrev Heightmap := List (List ℚ)

/-- Fields of `CogReader` consulted by `download_tile`: the
`rio_reader.tile_exists` outcome for the requested tile, the computed safe
zoom level, the `self.unsafe` flag and the dataset's nodata sentinel. -/
structure ReaderState where
  tileExists : Bool
  safe_level : ℤ
  bypassSafe : Bool
  nodata_value : Option ℚ
  deriving DecidableEq, Repr

/-- Embedding of `CogReader.download_tile` (`ctod/core/cog/reader/cog_reader.py`
lines 40-106).  `readResult` is the outcome of `self.rio_reader.tile(...)`
(`Except.error` when the raster read raises).  Returns `None` when the tile
does not overlap the dataset, or when `z < safe_level` and `self.unsafe` is
false.  On a successful read, when the dataset declares a nodata sentinel,
every pixel equal to the sentinel is assigned `float(nodata)`; the whole block
sits in one `try`, so if anything in it raises — the raster read itself, or
`float(nodata)` when `nodata` is a non-numeric string — the `except` catches
it and the function returns `None`. -/
def download_tile (r : ReaderState) (z : ℤ) (nodata : PyArg)
    (readResult : Except String Heightmap) : Option Heightmap :=
  if !r.tileExists then none
  else if decide (z < r.safe_level) && !r.bypassSafe then none
  else
    match readResult with
    | Except.error _ => none
    | Except.ok image_data =>
      match r.nodata_value with
      | none => some image_data
      | some sentinel =>
        match pyFloat nodata with
        | Except.error _ => none
        | Except.ok fill =>
          some (image_data.map (fun row =>
            row.map (fun p => if p = sentinel then fill else p)))

/-- Fields of `CogRequest` written by `_download`, generic over the processed
mesh type. -/
structure CogRequestData (M : Type) where
  data : Option Heightmap
  processed_data : Option M
  is_out_of_bounds : Bool
  deriving DecidableEq, Repr

/-- Initial field values set in `CogRequest.__init__`
(`ctod/core/cog/cog_request.py` lines 19-35): no data, no processed data, not
out of bounds. -/
def cogRequest_init (M : Type) : CogRequestData M :=
  { data := none, processed_data := none, is_out_of_bounds := false }

/-- Embedding of `CogRequest._download` (`ctod/core/cog/cog_request.py` lines
61-72).  The call
`reader.download_tile(self.x, self.y, self.z, loop, self.resampling_method, **kwargs)`
binds the reader's positional parameter `nodata` to `self.resampling_method`
(the parameter `resampling_method` of `download_tile` keeps its default
`None`).  If the download returned data it is stored and processed, otherwise
`is_out_of_bounds` is set. -/
def cogRequest_download {M : Type} (r : ReaderState) (z : ℤ)
    (resampling_method : String) (readResult : Except String Heightmap)
    (process : Heightmap → M) (s : CogRequestData M) : CogRequestData M :=
  match download_tile r z (PyArg.str resampling_method) readResult with
  | some dowloaded_data =>
    { s with data := some dowloaded_data, processed_data := some (process dowloaded_data) }
  | none => { s with is_out_of_bounds := true }

/-! ## `ctod/core/direction.py` and the grid terrain generator -/

/-- Embedding of `Direction` (`ctod/core/direction.py`). -/
inductive Direction where
  | north | northeast | east | southeast | south | southwest | west | northwest
  deriving DecidableEq, Repr

/-- Constant `tile_size = 255` fixed in
`TerrainGeneratorQuantizedMeshGrid._get_vertice_condition`. -/
def grid_tile_size : ℚ := 255

/-- In-place coordinate shift applied by `_get_vertice_condition`
(`ctod/core/terrain/generator/terrain_generator_quantized_mesh_grid.py` lines
169-208) before the edge test: the neighbour's vertices are translated into
the main tile's pixel space. -/
def edgeShift : Direction → V3 → V3
  | Direction.north, v => (v.1, v.2.1 - grid_tile_size, v.2.2)
  | Direction.northeast, v => (v.1 - grid_tile_size, v.2.1 - grid_tile_size, v.2.2)
  | Direction.northwest, v => (v.1 + grid_tile_size, v.2.1 - grid_tile_size, v.2.2)
  | Direction.east, v => (v.1 - grid_tile_size, v.2.1, v.2.2)
  | Direction.southeast, v => (v.1 - grid_tile_size, v.2.1 + grid_tile_size, v.2.2)
  | Direction.south, v => (v.1, v.2.1 + grid_tile_size, v.2.2)
  | Direction.southwest, v => (v.1 + grid_tile_size, v.2.1 + grid_tile_size, v.2.2)
  | Direction.west, v => (v.1 + grid_tile_size, v.2.1, v.2.2)

/-- Edge-membership test of `_get_vertice_condition`, evaluated on the
shifted vertices. -/
def edgeKeep : Direction → V3 → Bool
  | Direction.north, v => v.2.1 == 0
  | Direction.northeast, v => v.1 == 0 && v.2.1 == 0
  | Direction.northwest, v => v.1 == grid_tile_size && v.2.1 == 0
  | Direction.east, v => v.1 == 0
  | Direction.southeast, v => v.1 == 0 && v.2.1 == grid_tile_size
  | Direction.south, v => v.2.1 == grid_tile_size
  | Direction.southwest, v => v.1 == grid_tile_size && v.2.1 == grid_tile_size
  | Direction.west, v => v.1 == grid_tile_size

/-- Result of the 3-target unpack
`vertices, triangles, normals = main_cog.processed_data`: vertices,
triangles and, when normals were generated, one normal per vertex. -/
structure MeshPayload where
  vertices : List V3
  triangles : List Tri
  normals : Option (List V3)
  deriving DecidableEq, Repr

/-- Component of a `processed_data` tuple as returned by a cog processor:
a vertex-like array, a triangle index array, or the normals entry (an array
or `None`). -/
inductive MeshComponent where
  | vertexArray (vs : List V3)
  | triangleArray (ts : List Tri)
  | normalEntry (ns : Option (List V3))
  deriving DecidableEq, Repr

/-- Python tuple stored in `CogRequest.processed_data`, one entry per tuple
component. -/
abbrev ProcessedData := List MeshComponent

/-- Embedding of the value `CogProcessorQuantizedMeshGrid.process` returns
(`ctod/core/cog/processor/cog_processor_quantized_mesh_grid.py` line 59):
`return (vertices_new, triangles_new, normals, rescaled)` — a tuple of FOUR
components, where `rescaled = rescale_positions(vertices_new, tile_bounds,
flip_y=False)`.  (The delatin and martini processors return 3-tuples.) -/
def cogProcessorGrid_process_tuple (vertices : List V3) (triangles : List Tri)
    (normals : Option (List V3)) (tile_bounds : ℚ × ℚ × ℚ × ℚ) : ProcessedData :=
  [MeshComponent.vertexArray vertices, MeshComponent.triangleArray triangles,
   MeshComponent.normalEntry normals,
   MeshComponent.vertexArray (rescale_positions vertices tile_bounds false)]

/-- Python 3-target tuple unpack
`vertices, triangles, normals = main_cog.processed_data` (grid generator
line 37): succeeds exactly on a 3-component tuple, and raises `ValueError`
(`too many values to unpack`) on the grid processor's 4-tuple.  Python checks
only the length; the component kinds are matched here because every tuple a
processor builds is of the shape below. -/
def unpack3 : ProcessedData → Except String MeshPayload
  | [MeshComponent.vertexArray vs, MeshComponent.triangleArray ts,
     MeshComponent.normalEntry ns] => Except.ok ⟨vs, ts, ns⟩
  | _ => Except.error ("ValueError")

/-- Indexing `processed_data[0]`: the vertex array all processors place
first.  Unlike the 3-target unpack, tuple indexing does not depend on the
tuple length, so it works on the grid processor's 4-tuple. -/
def tupleVertices (pd : ProcessedData) : List V3 :=
  match pd[0]? with
  | some (MeshComponent.vertexArray vs) => vs
  | _ => []

/-- Indexing `processed_data[2]`: the normals entry all processors place
third (`None` when normals were not generated). -/
def tupleNormals (pd : ProcessedData) : Option (List V3) :=
  match pd[2]? with
  | some (MeshComponent.normalEntry ns) => ns
  | _ => none

/-- Fields of a neighbour `CogRequest` consulted by
`_get_transformed_edge_vertices`: whether `data` is present, the
out-of-bounds flag, and the processed-data tuple. -/
structure NeighborPayload where
  dataPresent : Bool
  is_out_of_bounds : Bool
  mesh : ProcessedData
  deriving DecidableEq, Repr

/-- Embedding of `_get_transformed_edge_vertices` (lines 121-138 of the grid
generator): `None` when the neighbour is missing, has no data or is out of
bounds; otherwise `processed_data[0]` shifted into the main tile's space and
restricted to the relevant edge. -/
def get_transformed_edge_vertices (nbr : Option NeighborPayload)
    (d : Direction) : Option (List V3) :=
  match nbr with
  | none => none
  | some p =>
    if !p.dataPresent || p.is_out_of_bounds then none
    else some (((tupleVertices p.mesh).map (edgeShift d)).filter (edgeKeep d))

/-- Embedding of `_get_edge_normals`: the same mask as
`_get_transformed_edge_vertices`, applied to `processed_data[2]`.  The source
indexes the normal array positionally against the vertex array; the zip is
faithful because the processor emits one normal per vertex (this path only
runs when `generate_normals` was set, in which case the normals entry is an
array — the `[]` fallback is unreachable in the source's states). -/
def get_edge_normals (nbr : Option NeighborPayload) (d : Direction) : Option (List V3) :=
  match nbr with
  | none => none
  | some p =>
    if !p.dataPresent || p.is_out_of_bounds then none
    else
      let ns := match tupleNormals p.mesh with
        | some ns => ns
        | none => []
      some (((((tupleVertices p.mesh).map (edgeShift d)).zip ns).filter
        (fun q => edgeKeep d q.1)).map Prod.snd)

/-- numpy `np.average` of a list of rationals. -/
def qAverage (l : List ℚ) : ℚ := l.sum / (l.length : ℚ)

/-- numpy `np.average(·, axis=0)` of a list of 3-vectors. -/
def v3Average (l : List V3) : V3 :=
  (qAverage (l.map (fun v => v.1)),
   qAverage (l.map (fun v => v.2.1)),
   qAverage (l.map (fun v => v.2.2)))

/-- Height-averaging step of the stitching loop (grid generator lines 55-62):
for a main vertex, the matching neighbour vertices are those with equal x and
y; if any exist, `vertice[2] = np.average(duplicated_vertices[:, 2])` — the
mean of the MATCHING NEIGHBOUR heights only, the tile's own height is not
included. -/
def stitch_vertex (neighbour_vertices : List V3) (v : V3) : V3 :=
  let duplicated := neighbour_vertices.filter
    (fun w => w.1 == v.1 && w.2.1 == v.2.1)
  if duplicated.length > 0
  then (v.1, v.2.1, qAverage (duplicated.map (fun w => w.2.2)))
  else v

/-- Normal-averaging step (grid generator lines 64-68): the matching
neighbour normals are selected by the same coordinate mask and averaged
together with the vertex's own normal
(`np.concatenate((duplicated_normals, normals[i].reshape(1, 3)))`). -/
def stitch_normal (neighbour_vertices neighbour_normals : List V3)
    (v : V3) (nrm : V3) : V3 :=
  let mask := (neighbour_vertices.zip neighbour_normals).filter
    (fun q => q.1.1 == v.1 && q.1.2.1 == v.2.1)
  if mask.length > 0
  then v3Average ((mask.map Prod.snd) ++ [nrm])
  else nrm

/-- Content of an encoded quantized-mesh tile.  The byte encoder
(`ctod/core/terrain/quantize.py` plus `quantized_mesh_encoder`) is a fixed
deterministic serialisation of the vertices, the triangles and — through the
oct-encoded vertex-normals extension, id 1, attached exactly when `normals`
is not `None` — the normals; we model a tile by the data it encodes. -/
structure QuantizedTile where
  vertices : List V3
  triangles : List Tri
  normals : Option (List V3)
  deriving DecidableEq, Repr

/-- Embedding of `quantize` (`ctod/core/terrain/quantize.py`):
`encode(...)` without extensions when `normals is None`, with the
vertex-normals extension otherwise. -/
def quantize (vertices : List V3) (triangles : List Tri)
    (normals : Option (List V3)) : QuantizedTile :=
  { vertices := vertices, triangles := triangles, normals := normals }

/-- Whether the encoded tile carries the oct-encoded vertex-normals
extension (extension id 1). -/
def QuantizedTile.hasNormalsExtension (t : QuantizedTile) : Bool :=
  t.normals.isSome

/-- Embedding of `generate_empty_tile` (`ctod/core/terrain/empty_tile.py`
lines 12-38).  A `generate_grid(256, 256, 20, 20)` mesh is given height 0
everywhere, rescaled to the tile bounds, converted to ECEF and equipped with
geodetic normals, and quantized.  `to_ecef` followed by the per-vertex
normalisation of `generate_geodetic_normals` is floating-point geometry whose
values no claim consults; it is one normal per rescaled vertex, passed in
here as the parameter `geodeticNormal`.  The function has no parameter for
requested extensions: the normals are ALWAYS computed and always handed to
`quantize`. -/
def generate_empty_tile (geodeticNormal : V3 → V3)
    (bounds : ℚ × ℚ × ℚ × ℚ) : QuantizedTile :=
  let g := generate_grid 256 256 20 20
  let vertices_3d : List V3 := g.1.map (fun p => ((p.1 : ℚ), (p.2 : ℚ), 0))
  let rescaled_vertices := rescale_positions vertices_3d bounds false
  let normals := rescaled_vertices.map geodeticNormal
  quantize rescaled_vertices g.2 (some normals)

/-- Arguments of `TerrainGeneratorQuantizedMeshGrid.generate`: the main
tile's `processed_data` tuple and bounds, the eight neighbour payloads, and
the request's `generate_normals` flag. -/
structure GridGenInput where
  mainProcessed : Option ProcessedData
  tile_bounds : ℚ × ℚ × ℚ × ℚ
  n : Option NeighborPayload
  ne : Option NeighborPayload
  e : Option NeighborPayload
  se : Option NeighborPayload
  s : Option NeighborPayload
  sw : Option NeighborPayload
  w : Option NeighborPayload
  nw : Option NeighborPayload
  generate_normals : Bool

/-- Embedding of `TerrainGeneratorQuantizedMeshGrid.generate` (lines 19-75).
If `main_cog.processed_data is None`, the empty tile is returned (line 34).
Otherwise line 37 performs the 3-target unpack
`vertices, triangles, normals = main_cog.processed_data`; on the grid
processor's 4-tuple this raises `ValueError`, which escapes `generate`
(there is no surrounding `try`) — modelled by the `Except.error` branch.
Only on a 3-tuple does the stitching continue: the neighbour/direction pairs
follow `_get_neighbour_transformed_edge_vertices`; when every neighbour
contribution is `None`, `neighbour_vertices` is `None` and the averaging pass
is skipped entirely; otherwise each main vertex's height (and, when
`generate_normals`, its normal) is updated by the stitching steps; the result
is rescaled to the tile bounds and quantized. -/
def terrainGeneratorGrid_generate (geodeticNormal : V3 → V3)
    (req : GridGenInput) : Except String QuantizedTile :=
  match req.mainProcessed with
  | none => Except.ok (generate_empty_tile geodeticNormal req.tile_bounds)
  | some pd =>
    match unpack3 pd with
    | Except.error e => Except.error e
    | Except.ok mesh =>
      let nbrDirs : List (Option NeighborPayload × Direction) :=
        [(req.n, Direction.south), (req.ne, Direction.southwest),
         (req.e, Direction.west), (req.se, Direction.northwest),
         (req.s, Direction.north), (req.sw, Direction.northeast),
         (req.w, Direction.east), (req.nw, Direction.southeast)]
      let arrays_v := nbrDirs.filterMap
        (fun q => get_transformed_edge_vertices q.1 q.2)
      if arrays_v.isEmpty then
        Except.ok (quantize (rescale_positions mesh.vertices req.tile_bounds false)
          mesh.triangles mesh.normals)
      else
        let neighbour_vertices := arrays_v.flatten
        let neighbour_normals :=
          (nbrDirs.filterMap (fun q => get_edge_normals q.1 q.2)).flatten
        let vertices' := mesh.vertices.map (stitch_vertex neighbour_vertices)
        let normals' := match mesh.normals with
          | some ns =>
            if req.generate_normals then
              some ((mesh.vertices.zip ns).map
                (fun q => stitch_normal neighbour_vertices neighbour_normals q.1 q.2))
            else some ns
          | none => none
        Except.ok (quantize (rescale_positions vertices' req.tile_bounds false)
          mesh.triangles normals')

/-- Generator input whose only available neighbour is `B` to the east
(slot `e`; every other neighbour slot of
`TerrainGeneratorQuantizedMeshGrid.generate` is `None`). -/
def eastOnlyInput (A B : ProcessedData) (bounds : ℚ × ℚ × ℚ × ℚ)
    (genN : Bool) : GridGenInput :=
  { mainProcessed := some A, tile_bounds := bounds,
    n := none, ne := none, e := some ⟨true, false, B⟩, se := none,
    s := none, sw := none, w := none, nw := none, generate_normals := genN }

/-- Generator input whose only available neighbour is `A` to the west
(slot `w`). -/
def westOnlyInput (B A : ProcessedData) (bounds : ℚ × ℚ × ℚ × ℚ)
    (genN : Bool) : GridGenInput :=
  { mainProcessed := some B, tile_bounds := bounds,
    n := none, ne := none, e := none, se := none,
    s := none, sw := none, w := some ⟨true, false, A⟩, nw := none,
    generate_normals := genN }

/-- Grid-processed payload of tile A of the two-tile stitching scenario: one
vertex on its east edge (x = 255) at height 10 and one interior-edge vertex;
the 4-tuple the grid processor stores in the cache. -/
def stitchTileA : ProcessedData :=
  cogProcessorGrid_process_tuple [(255, 0, 10), (0, 255, 50)] [] none (0, 0, 1, 1)

/-- Grid-processed payload of tile B, east of A: one vertex on its west edge
(x = 0) at height 20 — the same geographic point as A's east-edge vertex —
and one far-corner vertex. -/
def stitchTileB : ProcessedData :=
  cogProcessorGrid_process_tuple [(0, 0, 20), (255, 255, 99)] [] none (1, 0, 2, 1)

/-! ## Theorems -/

/-- C3 — Cache-key fingerprint.  The claim states that every CogRequest's
cache key is a function of exactly (source path, mesh method, z, x, y).  In
the code, `CogRequest.__init__` (cog_request.py line 29) passes only four
positional arguments, `generate_cog_cache_key(cog, z, x, y)`, to the
five-parameter key function: the call raises `TypeError` and names no mesh
method.  `TerrainRequest.__init__` (terrain_request.py line 46) passes all
five components, and under that intended call distinct mesh methods do
receive distinct keys. -/
theorem cogRequest_cache_key_call_is_typeerror :
    call_generate_cog_cache_key (cogRequest_key_args ("test.tif") 10 528 336)
        = Except.error ("TypeError")
    ∧ call_generate_cog_cache_key (terrainRequest_key_args ("test.tif") ("grid") 10 528 336)
        = Except.ok ("test.tif_grid_10_528_336")
    ∧ generate_cog_cache_key ("test.tif") ("grid") 10 528 336
        ≠ generate_cog_cache_key ("test.tif") ("delatin") 10 528 336 := by
  refine ⟨rfl, rfl, by decide⟩

/-- C1 — Dedup.  The claim's enqueue guard is in the code, but its claimed
consequence — the number of underlying source-tile reads equals the number of
distinct keys named — fails: `handle_request` raises `TypeError` inside the
`CogRequest` constructor (the four-argument `generate_cog_cache_key` call of
C3) at the first wanted key that passes the guard, so nothing is ever
enqueued and no download starts — one distinct key named, zero reads.
Draining the (empty) queue spawns nothing, and even for a key already
checked out, `_process_completed_cog_request` hits the
`download_tile_async(self._get_executor())` arity `TypeError` before the
download and before `open_requests.remove`: the state — key still in
`open_requests`, zero reads performed, nothing cached — is unchanged. -/
theorem terrainFactory_no_source_read_starts :
    (handle_request_enqueue ⟨[], [], [], 0⟩
        [⟨"k", "test.tif", 10, 528, 336⟩] = Except.error ("TypeError"))
    ∧ (process_queue ⟨[], [], [], 0⟩ = ⟨[], [], [], 0⟩)
    ∧ (process_completed_cog_request ⟨[], [], ["k"], 0⟩ ("k") = ⟨[], [], ["k"], 0⟩)
    ∧ ((([⟨"k", "test.tif", 10, 528, 336⟩] : List WantedFile).map
        WantedFile.key).dedup.length = 1) := by
  refine ⟨rfl, rfl, rfl, by decide⟩

/-- C5 — Nodata normalization.  `CogRequest._download` binds the reader's
`nodata` parameter to `self.resampling_method`; for a source that declares a
nodata sentinel, `float("bilinear")` raises inside the `try`, so
`download_tile` returns `None` and the request is marked out of bounds —
the claimed sentinel-to-fill rewrite never happens on this call path.  Called
with a numeric `nodata` (as the claim intends), the function does rewrite
exactly the sentinel pixels to the fill and leaves the rest unchanged. -/
theorem download_tile_nodata_slot_gets_resampling_method :
    download_tile ⟨true, 0, false, some (-9999)⟩ 10 (PyArg.str ("bilinear"))
        (Except.ok [[-9999, 5]]) = none
    ∧ download_tile ⟨true, 0, false, some (-9999)⟩ 10 (PyArg.int 0)
        (Except.ok [[-9999, 5]]) = some [[0, 5]]
    ∧ cogRequest_download ⟨true, 0, false, some (-9999)⟩ 10 ("bilinear")
        (Except.ok [[-9999, 5]]) (fun h => h) (cogRequest_init Heightmap)
        = { data := none, processed_data := none, is_out_of_bounds := true } := by
  refine ⟨?_, ?_, ?_⟩ <;> decide

/-- C6 — Read-failure recovery.  Whatever the reader's state and the nodata
argument, if the underlying raster read raises then `download_tile` returns
`None` (the exception is consumed inside the function), and running
`_download` from a freshly constructed CogRequest then sets
`is_out_of_bounds = True` and leaves `data` and `processed_data` unset. -/
theorem download_tile_read_failure_recovers
    (r : ReaderState) (z : ℤ) (nodata : PyArg) (msg : String)
    (resampling : String) (M : Type) (process : Heightmap → M) :
    download_tile r z nodata (Except.error msg) = none
    ∧ cogRequest_download r z resampling (Except.error msg) process (cogRequest_init M)
        = { data := none, processed_data := none, is_out_of_bounds := true } := by
  have h1 : ∀ nd : PyArg, download_tile r z nd (Except.error msg) = none := by
    intro nd
    unfold download_tile
    split
    · rfl
    · split
      · rfl
      · rfl
  refine ⟨h1 nodata, ?_⟩
  unfold cogRequest_download
  rw [h1 (PyArg.str resampling)]
  rfl

/-- Closed instance of `download_tile_read_failure_recovers` at a concrete
reader state and read error. -/
theorem download_tile_read_failure_recovers_witness :
    download_tile ⟨true, 3, false, some 0⟩ 7 (PyArg.str ("bilinear"))
        (Except.error ("rasterio read failed")) = none
    ∧ cogRequest_download ⟨true, 3, false, some 0⟩ 7 ("bilinear")
        (Except.error ("rasterio read failed")) (fun h => h) (cogRequest_init Heightmap)
        = { data := none, processed_data := none, is_out_of_bounds := true } :=
  download_tile_read_failure_recovers ⟨true, 3, false, some 0⟩ 7
    (PyArg.str ("bilinear")) ("rasterio read failed") ("bilinear") Heightmap (fun h => h)

/-- C2 — Pinning.  `_cleanup` passes the concatenated wanted-file keys of all
pending terrain requests to `clear_expired` as the keep set.  First part: an
entry whose key some pending request wants survives the cleanup.  Second
part: any entry the cleanup removes was strictly older than the TTL and
wanted by no pending request. -/
theorem factory_cleanup_never_evicts_pinned (entries : List CacheEntry)
    (ttl now : ℚ) (pending : List PendingRequest) :
    (∀ e ∈ entries, (∃ r ∈ pending, e.key ∈ r.wantedKeys) →
        e ∈ factory_cleanup entries ttl now pending)
    ∧ (∀ e ∈ entries, e ∉ factory_cleanup entries ttl now pending →
        now - e.timestamp > ttl ∧ ∀ r ∈ pending, e.key ∉ r.wantedKeys) := by
  unfold factory_cleanup clear_expired
  by_cases hk : (pending.flatMap (fun r => r.wantedKeys)).isEmpty
  · simp only [hk, if_pos]
    constructor
    · intro e he _
      exact he
    · intro e he hne
      exact absurd he hne
  · simp only [hk, if_neg, Bool.false_eq_true, not_false_eq_true]
    constructor
    · intro e he ⟨r, hr, hkey⟩
      refine List.mem_filter.mpr ⟨he, ?_⟩
      have hmem : e.key ∈ pending.flatMap (fun r => r.wantedKeys) :=
        List.mem_flatMap.mpr ⟨r, hr, hkey⟩
      have hc : (pending.flatMap (fun r => r.wantedKeys)).contains e.key = true :=
        List.elem_iff.mpr hmem
      rw [hc]
      simp
    · intro e he hne
      rcases Bool.eq_false_or_eq_true
          (decide (now - e.timestamp > ttl)
            && !((pending.flatMap (fun r => r.wantedKeys)).contains e.key)) with ht | hf
      · rw [Bool.and_eq_true] at ht
        rcases ht with ⟨h1, h2⟩
        refine ⟨of_decide_eq_true h1, fun r hr hkey => ?_⟩
        rw [Bool.not_eq_true'] at h2
        have h2' : List.elem e.key (pending.flatMap fun r => r.wantedKeys) = false := h2
        have hcontr : List.elem e.key (pending.flatMap fun r => r.wantedKeys) = true :=
          List.elem_iff.mpr (List.mem_flatMap.mpr ⟨r, hr, hkey⟩)
        rw [h2'] at hcontr
        exact absurd hcontr Bool.false_ne_true
      · refine absurd (List.mem_filter.mpr ⟨he, ?_⟩) hne
        rw [hf]
        rfl

/-- Closed instance of `factory_cleanup_never_evicts_pinned`: with TTL 30 at
time 100, an entry written at time 0 whose key `"a"` is wanted by a pending
request survives, while the unpinned entry `"k"` of the same age is removed
because it is expired and wanted by no pending request. -/
theorem factory_cleanup_never_evicts_pinned_witness :
    ((⟨"a", 0⟩ : CacheEntry) ∈ factory_cleanup [⟨"a", 0⟩, ⟨"k", 0⟩] 30 100 [⟨["a"]⟩])
    ∧ ((100 : ℚ) - 0 > 30 ∧ ∀ r ∈ [(⟨["a"]⟩ : PendingRequest)], "k" ∉ r.wantedKeys) := by
  have h := factory_cleanup_never_evicts_pinned [⟨"a", 0⟩, ⟨"k", 0⟩] 30 100 [⟨["a"]⟩]
  have hnot : (⟨"k", 0⟩ : CacheEntry)
      ∉ factory_cleanup [⟨"a", 0⟩, ⟨"k", 0⟩] 30 100 [⟨["a"]⟩] := by
    norm_num [factory_cleanup, clear_expired]
    decide
  exact ⟨h.1 ⟨"a", 0⟩ (by decide) ⟨⟨["a"]⟩, by decide, by decide⟩,
    h.2 ⟨"k", 0⟩ (by decide) hnot⟩

/-- Largest value seen by a left fold of `max` is attained in the list unless
it is the seed. -/
theorem foldl_max_attained (l : List ℚ) (a : ℚ) :
    l.foldl max a = a ∨ l.foldl max a ∈ l := by
  induction l generalizing a with
  | nil => exact Or.inl rfl
  | cons x xs ih =>
    rcases ih (max a x) with h | h
    · rcases max_choice a x with h2 | h2
      · rw [List.foldl_cons, h, h2]
        exact Or.inl rfl
      · rw [List.foldl_cons, h, h2]
        exact Or.inr (List.mem_cons_self x xs)
    · exact Or.inr (List.mem_cons_of_mem x h)

/-- C10 counterexample.  Two closed instances falsify the claim as stated.
With the single vertex `(0, 0, 5)` the maximal x/y coordinate is 0, the scale
divides by zero (numpy: `inf`, then `0 * inf = nan`; in the rational model
`q / 0 = 0`), and the vertex lands on `minx = 1`, not on the maximal edge
`maxx = 3`.  With `flip_y = True` the vertex attaining the maximal coordinate
`y = 2` lands on `miny = 2`, not on `maxy = 4`.  The height column is still
copied unchanged in both. -/
theorem rescale_positions_counterexample :
    rescale_positions [(0, 0, 5)] (1, 2, 3, 4) false = [(1, 2, 5)]
    ∧ rescale_positions [(0, 2, 7)] (1, 2, 3, 4) true = [(1, 2, 7)]
    ∧ ((1 : ℚ) ≠ 3 ∧ (2 : ℚ) ≠ 4) := by
  refine ⟨?_, ?_, by norm_num⟩
  · simp [rescale_positions]
  · simp [rescale_positions]
    norm_num

/-- C10 amended — rescale scale factor.  For a vertex array whose maximal
x/y coordinate (`tile_size = vertices[:, :2].max()`) is nonzero, and with
`flip_y = false` as used by the terrain pipeline: the output is the pointwise
linear map whose scale divides by that maximum (not by a fixed tile size),
the maximum is attained by some vertex, any vertex coordinate equal to the
maximum is mapped exactly onto the corresponding maximal bound, and the
height column is returned unchanged. -/
theorem rescale_positions_amended (vertices : List V3) (bounds : ℚ × ℚ × ℚ × ℚ)
    (hts : tileSizeOf vertices ≠ 0) :
    (rescale_positions vertices bounds false
      = vertices.map (fun v =>
          (v.1 * ((bounds.2.2.1 - bounds.1) / tileSizeOf vertices) + bounds.1,
           v.2.1 * ((bounds.2.2.2 - bounds.2.1) / tileSizeOf vertices) + bounds.2.1,
           v.2.2)))
    ∧ (∃ v ∈ vertices, v.1 = tileSizeOf vertices ∨ v.2.1 = tileSizeOf vertices)
    ∧ (∀ v ∈ vertices,
        (v.1 = tileSizeOf vertices →
          v.1 * ((bounds.2.2.1 - bounds.1) / tileSizeOf vertices) + bounds.1
            = bounds.2.2.1)
        ∧ (v.2.1 = tileSizeOf vertices →
          v.2.1 * ((bounds.2.2.2 - bounds.2.1) / tileSizeOf vertices) + bounds.2.1
            = bounds.2.2.2)) := by
  refine ⟨rfl, ?_, ?_⟩
  · rcases foldl_max_attained
        ((vertices.map Prod.fst) ++ (vertices.map (fun v => v.2.1))) 0 with h | h
    · exact absurd h hts
    · rcases List.mem_append.mp h with h2 | h2
      · rcases List.mem_map.mp h2 with ⟨v, hv, hveq⟩
        exact ⟨v, hv, Or.inl hveq⟩
      · rcases List.mem_map.mp h2 with ⟨v, hv, hveq⟩
        exact ⟨v, hv, Or.inr hveq⟩
  · intro v _
    constructor
    · intro hv
      rw [hv, mul_div_assoc', mul_comm, mul_div_assoc, div_self hts, mul_one,
        sub_add_cancel]
    · intro hv
      rw [hv, mul_div_assoc', mul_comm, mul_div_assoc, div_self hts, mul_one,
        sub_add_cancel]

/-- Closed instance of `rescale_positions_amended`: a two-vertex mesh with
maximal coordinate 255 is stretched onto the bounds `(0, 0, 1, 1)`; the
vertices attaining the maximum land on the maximal edges and the heights are
unchanged. -/
theorem rescale_positions_amended_witness :
    tileSizeOf [((255 : ℚ), 0, 10), (0, 255, 50)] ≠ 0
    ∧ rescale_positions [((255 : ℚ), 0, 10), (0, 255, 50)] (0, 0, 1, 1) false
        = [(1, 0, 10), (0, 1, 50)] := by
  have hts : tileSizeOf [((255 : ℚ), 0, 10), (0, 255, 50)] ≠ 0 := by
    norm_num [tileSizeOf]
  have h := rescale_positions_amended [((255 : ℚ), 0, 10), (0, 255, 50)]
    (0, 0, 1, 1) hts
  refine ⟨hts, ?_⟩
  rw [h.1]
  norm_num [tileSizeOf]

/-- Vertex count of `generate_grid`: `(num_rows + 1) * (num_cols + 1)`. -/
theorem generate_grid_fst_length (w h r c : ℕ) :
    (generate_grid w h r c).1.length = (r + 1) * (c + 1) := by
  simp [generate_grid, linspace_trunc, List.length_flatMap, Function.comp_def]

/-- Triangle count of `generate_grid`: two per cell. -/
theorem generate_grid_snd_length (w h r c : ℕ) :
    (generate_grid w h r c).2.length = 2 * (r * c) := by
  simp [generate_grid, List.length_flatMap, Function.comp_def]
  ring

/-- Every `generate_grid` vertex coordinate stays within the grid extent. -/
theorem generate_grid_fst_bounds (w h r c : ℕ) (hr : 1 ≤ r) (hc : 1 ≤ c) :
    ∀ v ∈ (generate_grid w h r c).1, v.1 ≤ w ∧ v.2 ≤ h := by
  intro v hv
  simp only [generate_grid, List.mem_flatMap, List.mem_map, linspace_trunc] at hv
  rcases hv with ⟨y, ⟨i, hi, hyeq⟩, x, ⟨j, hj, hxeq⟩, hveq⟩
  rw [List.mem_range] at hi hj
  subst hveq
  constructor
  · rw [← hxeq]
    calc w * j / c ≤ w * c / c :=
          Nat.div_le_div_right (Nat.mul_le_mul_left _ (by omega))
    _ = w := Nat.mul_div_cancel _ hc
  · rw [← hyeq]
    calc h * i / r ≤ h * r / r :=
          Nat.div_le_div_right (Nat.mul_le_mul_left _ (by omega))
    _ = h := Nat.mul_div_cancel _ hr

/-- Each grid cell contributes its two triangles to `generate_grid`. -/
theorem generate_grid_cell_triangles (w h r c : ℕ) (i j : ℕ)
    (hi : i < r) (hj : j < c) :
    ((i * (c + 1) + j, i * (c + 1) + j + 1, (i + 1) * (c + 1) + j)
        ∈ (generate_grid w h r c).2)
    ∧ (((i + 1) * (c + 1) + j, i * (c + 1) + j + 1, (i + 1) * (c + 1) + j + 1)
        ∈ (generate_grid w h r c).2) := by
  constructor <;>
  · simp only [generate_grid, List.mem_flatMap]
    exact ⟨i, List.mem_range.mpr hi, j, List.mem_range.mpr hj, by simp⟩

/-- C8 — Grid mesh shape.  For a grid size `N` with `1 ≤ N ≤ 255`, the grid
processor's mesh has `(N + 1) * (N + 1)` vertices with (integer) pixel
coordinates in `[0, 255]` and `2 * N * N` triangles, each cell split into the
two triangles `(top_left, top_right, bottom_left)` and
`(bottom_left, top_right, bottom_right)`; requested sizes above 255 are
clamped to 255. -/
theorem cogProcessorGrid_mesh_shape (N : ℕ) (h1 : 1 ≤ N) (h2 : N ≤ 255) :
    ((cogProcessorGrid_get_grid N N).1.length = (N + 1) * (N + 1))
    ∧ (∀ v ∈ (cogProcessorGrid_get_grid N N).1, v.1 ≤ 255 ∧ v.2 ≤ 255)
    ∧ ((cogProcessorGrid_get_grid N N).2.length = 2 * (N * N))
    ∧ (∀ i < N, ∀ j < N,
        ((i * (N + 1) + j, i * (N + 1) + j + 1, (i + 1) * (N + 1) + j)
            ∈ (cogProcessorGrid_get_grid N N).2)
        ∧ (((i + 1) * (N + 1) + j, i * (N + 1) + j + 1, (i + 1) * (N + 1) + j + 1)
            ∈ (cogProcessorGrid_get_grid N N).2))
    ∧ (∀ M : ℕ, 255 < M →
        cogProcessorGrid_get_grid M M = cogProcessorGrid_get_grid 255 255) := by
  have hgg : cogProcessorGrid_get_grid N N = generate_grid 255 255 N N := by
    simp only [cogProcessorGrid_get_grid]
    rw [if_neg (show ¬ N > 255 by omega)]
  rw [hgg]
  refine ⟨generate_grid_fst_length 255 255 N N,
    generate_grid_fst_bounds 255 255 N N h1 h1,
    generate_grid_snd_length 255 255 N N,
    fun i hi j hj => generate_grid_cell_triangles 255 255 N N i j hi hj,
    fun M hM => ?_⟩
  simp only [cogProcessorGrid_get_grid]
  rw [if_pos (show M > 255 by omega), if_neg (show ¬ 255 > 255 by omega)]

/-- Closed instance of `cogProcessorGrid_mesh_shape` at the default grid size
20: 441 vertices and 800 triangles. -/
theorem cogProcessorGrid_mesh_shape_witness :
    (cogProcessorGrid_get_grid 20 20).1.length = 441
    ∧ (cogProcessorGrid_get_grid 20 20).2.length = 800 := by
  have h := cogProcessorGrid_mesh_shape 20 (by norm_num) (by norm_num)
  exact ⟨by rw [h.1], by rw [h.2.2.1]⟩

/-- C7 counterexample.  The claim says the empty tile carries the geodetic
normals extension if and only if the request asked for `octvertexnormals`.
`generate_empty_tile` takes no extension parameter at all: it computes
geodetic normals unconditionally and always hands them to `quantize`, so the
tile for a request that did not ask for the extension still carries it. -/
theorem generate_empty_tile_always_carries_normals :
    (generate_empty_tile (fun v => v) (0, 0, 1, 1)).hasNormalsExtension = true := rfl

/-- C7 amended — Empty-tile contents.  For any bounds (hence any tile index)
and any geodetic-normal assignment, the empty tile is the 20×20-cell regular
grid — 441 vertices, 800 triangles — with every height equal to 0, and it
ALWAYS carries the oct-encoded geodetic-normals extension, whether or not the
request asked for `octvertexnormals`; the construction is a pure function of
the tile bounds, hence byte-identical across runs. -/
theorem generate_empty_tile_amended (geodeticNormal : V3 → V3)
    (bounds : ℚ × ℚ × ℚ × ℚ) :
    ((generate_empty_tile geodeticNormal bounds).vertices.length = 441)
    ∧ ((generate_empty_tile geodeticNormal bounds).triangles.length = 800)
    ∧ (∀ v ∈ (generate_empty_tile geodeticNormal bounds).vertices, v.2.2 = 0)
    ∧ ((generate_empty_tile geodeticNormal bounds).hasNormalsExtension = true) := by
  have hv : (generate_empty_tile geodeticNormal bounds).vertices
      = rescale_positions
          ((generate_grid 256 256 20 20).1.map (fun p => ((p.1 : ℚ), (p.2 : ℚ), 0)))
          bounds false := rfl
  refine ⟨?_, ?_, ?_, rfl⟩
  · rw [hv]
    simp only [rescale_positions, List.length_map]
    rw [if_neg (by simp)]
    simp [generate_grid_fst_length 256 256 20 20]
  · have ht : (generate_empty_tile geodeticNormal bounds).triangles
        = (generate_grid 256 256 20 20).2 := rfl
    rw [ht, generate_grid_snd_length 256 256 20 20]
  · intro v hv2
    rw [hv] at hv2
    simp only [rescale_positions] at hv2
    split at hv2
    · rcases List.mem_map.mp hv2 with ⟨u, hu, hueq⟩
      rcases List.mem_map.mp hu with ⟨p, _, hpeq⟩
      rw [← hueq, ← hpeq]
    · rcases List.mem_map.mp hv2 with ⟨u, hu, hueq⟩
      rcases List.mem_map.mp hu with ⟨p, _, hpeq⟩
      rw [← hueq, ← hpeq]

/-- Closed instance of `generate_empty_tile_amended`. -/
theorem generate_empty_tile_amended_witness :
    ((generate_empty_tile (fun v => v) (0, 0, 1, 1)).vertices.length = 441)
    ∧ ((generate_empty_tile (fun v => v) (0, 0, 1, 1)).triangles.length = 800) :=
  ⟨(generate_empty_tile_amended (fun v => v) (0, 0, 1, 1)).1,
   (generate_empty_tile_amended (fun v => v) (0, 0, 1, 1)).2.1⟩

/-- C9 — Edge idempotence.  The claim matches the spec's intent, but the
code fails before the averaging pass could be skipped: the grid processor
stores the 4-tuple `(vertices, triangles, normals, rescaled)` in
`processed_data` (`cogProcessorGrid_process_tuple`), and `generate`'s
3-target unpack at line 37 raises `ValueError` on it, so with all eight
neighbours absent the generator produces no tile at all, instead of the
claimed unstitched encoded mesh.  (The delatin and martini processors return
3-tuples and the grid processor's own docstring promises "vertices, triangles
and normals", so the 3-target unpack is the intended shape and the extra
`rescaled` component the slip.) -/
theorem grid_generate_unpack_raises :
    (terrainGeneratorGrid_generate (fun v => v)
        { mainProcessed := some (cogProcessorGrid_process_tuple
            [(0, 0, 7)] [(0, 1, 2)] none (0, 0, 1, 1)),
          tile_bounds := (0, 0, 1, 1), n := none, ne := none, e := none,
          se := none, s := none, sw := none, w := none, nw := none,
          generate_normals := false }
        = Except.error ("ValueError"))
    ∧ ((cogProcessorGrid_process_tuple [(0, 0, 7)] [(0, 1, 2)] none
        (0, 0, 1, 1)).length = 4) :=
  ⟨rfl, rfl⟩

/-- C4 — Neighbor symmetry.  The claim quantifies over the stitched outputs
of two adjacent tiles each stitched with the other; on the code no such
outputs exist: both `generate` calls raise `ValueError` unpacking the grid
processor's 4-tuple at line 37, before any stitching.  Moreover, the
neighbour arrays the stitching pass would use are as modelled
(`_get_transformed_edge_vertices` on the 4-tuples), and the height-averaging
step that runs on a 3-field payload sets a vertex to the mean of the
MATCHING NEIGHBOUR heights only — its own height is discarded — so A's
shared-edge vertex would take B's height 20 and B's would take A's height
10: exchanged, not identical. -/
theorem grid_stitch_raises_before_stitching :
    (terrainGeneratorGrid_generate (fun v => v)
        (eastOnlyInput stitchTileA stitchTileB (0, 0, 1, 1) false)
      = Except.error ("ValueError"))
    ∧ (terrainGeneratorGrid_generate (fun v => v)
        (westOnlyInput stitchTileB stitchTileA (1, 0, 2, 1) false)
      = Except.error ("ValueError"))
    ∧ (get_transformed_edge_vertices (some ⟨true, false, stitchTileB⟩)
        Direction.west = some [(255, 0, 20)])
    ∧ (get_transformed_edge_vertices (some ⟨true, false, stitchTileA⟩)
        Direction.east = some [(0, 0, 10)])
    ∧ (stitch_vertex [((255 : ℚ), 0, 20)] (255, 0, 10) = (255, 0, 20))
    ∧ (stitch_vertex [((0 : ℚ), 0, 10)] (0, 0, 20) = (0, 0, 10))
    ∧ ((20 : ℚ) ≠ 10) := by
  refine ⟨rfl, rfl, ?_, ?_, ?_, ?_, by norm_num⟩
  · norm_num [get_transformed_edge_vertices, tupleVertices, stitchTileB,
      cogProcessorGrid_process_tuple, edgeShift, edgeKeep, grid_tile_size]
  · norm_num [get_transformed_edge_vertices, tupleVertices, stitchTileA,
      cogProcessorGrid_process_tuple, edgeShift, edgeKeep, grid_tile_size]
  · norm_num [stitch_vertex, qAverage]
  · norm_num [stitch_vertex, qAverage]

end Ctod
